import Mathlib

/-!
Shallow embedding of the repository pyautoml/circuit-rotator:

  src/rotating_ip.py    — class TorIpRotator
  src/rotating_proxy.py — class TorProxy

The two classes are near-duplicates; both are embedded.  Network effects
(httpx requests, the stem Tor controller) are modelled as oracles: each
call site consumes an outcome supplied by the environment.  Python
exceptions become explicit `Except PyError` values.

Note on src/rotating_proxy.py: lines 75–81 (the body of
`__renew_tor_circuit`) and the tail of the file carry stray extra
indentation in the source text; the embedding models the evidently
intended body, which is character-for-character the body of the same
method in src/rotating_ip.py.
-/

set_option maxRecDepth 8000

/-- Outcome of a single httpx request (`httpx.get` or `client.get`) as the
repository's code can observe it: either a transport-level failure (an
`httpx.RequestError`) or a response carrying a status code and a body text. -/
inductive HttpxResult where
  | transportError (msg : String)
  | response (status : Nat) (body : String)
deriving DecidableEq, Repr

/-- Python exceptions surfaced by the repository's code paths:
`valueError` — the two configuration checks in `__init__`;
`runtimeError` — the explicit `raise RuntimeError(...)` sites;
`httpStatusError` — `response.raise_for_status()` on a non-2xx response
(an `httpx.HTTPStatusError`, which is NOT a subclass of
`httpx.RequestError`);
`httpxError` — an `httpx.RequestError` escaping unwrapped;
`controllerError` — a stem failure inside `__renew_tor_circuit`
(connection, authentication, signal or get_info). -/
inductive PyError where
  | valueError (msg : String)
  | runtimeError (msg : String)
  | httpStatusError (status : Nat)
  | httpxError (msg : String)
  | controllerError (msg : String)
deriving DecidableEq, Repr

/-- httpx `Response.is_success`: the 2xx range.  `raise_for_status` raises
`HTTPStatusError` exactly when this is false. -/
def is_success (status : Nat) : Bool :=
  200 ≤ status && status < 300

/-- `httpx.get(url)` followed by `response.raise_for_status()` and
`response.text`, with no exception handler around it (the body of
`__check_local_ip` / `__check_local_proxy`): a transport failure escapes as
the raw `httpx.RequestError`, a non-2xx response escapes as the raw
`httpx.HTTPStatusError`. -/
def getRaiseForStatusText : HttpxResult → Except PyError String
  | .transportError msg => .error (.httpxError msg)
  | .response st body =>
      if is_success st then .ok body else .error (.httpStatusError st)

/-- Python `str.splitlines` restricted to the common line boundaries
`\r\n`, `\r`, `\n` (no trailing empty line is produced). -/
def splitlinesAux : List Char → List Char → List String
  | [], [] => []
  | [], acc => [String.mk acc.reverse]
  | '\r' :: '\n' :: rest, acc => String.mk acc.reverse :: splitlinesAux rest []
  | '\r' :: rest, acc => String.mk acc.reverse :: splitlinesAux rest []
  | '\n' :: rest, acc => String.mk acc.reverse :: splitlinesAux rest []
  | c :: rest, acc => splitlinesAux rest (c :: acc)

/-- Python `str.splitlines` on a whole string. -/
def splitlines (s : String) : List String :=
  splitlinesAux s.data []

/-- Python dict assignment `d[k] = v` on an association list: overwrite an
existing key in place, otherwise append at the end. -/
def dictSet {α : Type} : List (String × α) → String → α → List (String × α)
  | [], k, v => [(k, v)]
  | (k', v') :: rest, k, v =>
      if k' = k then (k, v) :: rest else (k', v') :: dictSet rest k v

/-- Outcome of one interaction with the Tor controller inside
`__renew_tor_circuit`: either some stem call raised (`failure`: connection,
authentication, NEWNYM signal or `get_info` — in every such case the
`tor_data` assignment has not happened), or the whole block succeeded and
`get_info("circuit-status")` returned the text `info`. -/
inductive ControllerResult where
  | failure (msg : String)
  | status (info : String)
deriving DecidableEq, Repr

/-- The environment's behaviour for one iteration of the rotation loop:
what the controller does for the NEWNYM renewal, and what the subsequent
HTTP probe through the mounted client returns. -/
structure Attempt where
  ctrl : ControllerResult
  probe : HttpxResult
deriving DecidableEq, Repr

/-- One network call performed through httpx, recorded together with the
mount table (`mounts=` argument) in effect when the call was issued.
`[]` is the empty mount dict: no transport override, so httpx routes the
request directly. -/
structure NetCall where
  url : String
  mounts : List (String × Option String)
deriving DecidableEq, Repr

/-- The state of a `TorIpRotator` instance (src/rotating_ip.py, lines
24–35): pydantic fields plus the private `_tor_password` attribute.
`tor_data` maps keys to circuit-status line lists; `tor_mount_ip` is the
httpx mount dict, modelled as scheme-pattern ↦ proxy-URL pairs. -/
structure TorIpRotator where
  tor_ip : String
  local_ip : String
  tor_data : List (String × List String)
  max_rotations : Nat
  tor_mount_ip : List (String × Option String)
  tor_port : Int
  used_ips : List String
  ip_service_url : String
  tor_password : String
  max_circuit_dirtness : Int
deriving DecidableEq, Repr

namespace TorIpRotator

/-- src/rotating_ip.py lines 60–67, `make_request_through_tor`: the
`try` block performs `client.get(url)` (outcome `get`), then
`raise_for_status()`, then returns `response.text`.  Only
`httpx.RequestError` is caught and wrapped in
`RuntimeError("Failed to make a request through Tor: ...")`; the
`httpx.HTTPStatusError` raised by `raise_for_status()` on a non-2xx
response is not a `RequestError` and escapes unwrapped. -/
def make_request_through_tor (get : HttpxResult) : Except PyError String :=
  match get with
  | .transportError msg =>
      .error (.runtimeError ("Failed to make a request through Tor: " ++ msg))
  | .response st body =>
      if is_success st then .ok body else .error (.httpStatusError st)

/-- src/rotating_ip.py lines 72–73, `__extract_circuit_status`. -/
def extract_circuit_status (data : String) : List String :=
  splitlines data

/-- src/rotating_ip.py lines 75–83, `__renew_tor_circuit`: authenticate,
send NEWNYM, then store the split circuit status into
`tor_data["circuit_status"]`.  On any stem failure the exception
propagates and `tor_data` is untouched. -/
def renew_tor_circuit (s : TorIpRotator) (ctrl : ControllerResult) :
    Except PyError TorIpRotator :=
  match ctrl with
  | .failure msg => .error (.controllerError msg)
  | .status info =>
      .ok { s with tor_data :=
              dictSet s.tor_data "circuit_status" (extract_circuit_status info) }

/-- src/rotating_ip.py lines 37–55, `__init__`.  Inputs: the environment
configuration (`PASSWORD`, `SERVICE_URL`, `SOCKET`, `PORT`,
`MAX_CIRCUIT_DIRTINESS`), the default `max_rotations`, and the outcomes of
the (at most) two probes it performs.  Returns the construction result
together with the trace of httpx calls actually issued, each tagged with
the mount table in effect at that moment.  The config checks come first
(`not self._tor_password` / `not self.ip_service_url`, empty string =
falsy); then `__check_local_ip` (direct `httpx.get`); then
`__check_tor_ip` via `make_request_through_tor` — issued while
`self.tor_mount_ip` is still the pydantic default `{}`, because the mount
dict is assigned only afterwards (lines 52–55). -/
def init (password ip_service_url : String) (socket : Option String)
    (tor_port : Int) (max_circuit_dirtness : Int) (max_rotations : Nat)
    (probe1 probe2 : HttpxResult) :
    Except PyError TorIpRotator × List NetCall :=
  if password = "" then
    (.error (.valueError
      "Tor password is not set. Ensure the PASSWORD environment variable is configured."), [])
  else if ip_service_url = "" then
    (.error (.valueError
      "Service URL is not set. Ensure the SERVICE_URL environment variable is configured."), [])
  else
    let call1 : NetCall := ⟨ip_service_url, []⟩
    match getRaiseForStatusText probe1 with
    | .error e => (.error e, [call1])
    | .ok localIp =>
      let call2 : NetCall := ⟨ip_service_url, []⟩
      match make_request_through_tor probe2 with
      | .error e => (.error e, [call1, call2])
      | .ok torIp =>
        (.ok { tor_ip := torIp
             , local_ip := localIp
             , tor_data := []
             , max_rotations := max_rotations
             , tor_mount_ip := [("http://", socket), ("https://", socket)]
             , tor_port := tor_port
             , used_ips := []
             , ip_service_url := ip_service_url
             , tor_password := password
             , max_circuit_dirtness := max_circuit_dirtness },
         [call1, call2])

/-- Result of a `rotate_ip` call: the returned IP or the raised exception,
the instance state afterwards, and the number of loop iterations executed
(= renewal attempts performed). -/
inductive RotateResult where
  | ok (ip : String) (s : TorIpRotator) (attempts : Nat)
  | error (e : PyError) (s : TorIpRotator) (attempts : Nat)
deriving DecidableEq, Repr

/-- Number of renewal attempts a rotate call performed. -/
def RotateResult.attempts : RotateResult → Nat
  | .ok _ _ n => n
  | .error _ _ n => n

/-- Instance state after a rotate call (whether it returned or raised). -/
def RotateResult.state : RotateResult → TorIpRotator
  | .ok _ s _ => s
  | .error _ s _ => s

/-- The `for _ in range(self.max_rotations)` loop of `rotate_ip`
(src/rotating_ip.py lines 97–111).  `oracle k` is the environment's
behaviour at loop iteration `k`; `i` is the index of the current
iteration and `fuel` the number of iterations left.  Each iteration calls
`__generate_new_tor_ip` = `__renew_tor_circuit` then `__check_tor_ip`;
exceptions from either propagate out of `rotate_ip` at once.  Then the
acceptance policy: baseline match ⇒ `continue`; `unique` duplicate ⇒
raise `RuntimeError("All possible IPs have been exhausted.")` when
`len(used_ips) >= max_rotations`, else `continue`; otherwise append to
`used_ips` and return.  Falling out of the loop raises
`RuntimeError("Max IP rotations reached. Failed to get a unique new IP.")`. -/
def rotate_ip_loop (oracle : Nat → Attempt) (unique prevent_ips_match : Bool) :
    Nat → Nat → TorIpRotator → RotateResult
  | i, 0, s =>
      .error (.runtimeError
        "Max IP rotations reached. Failed to get a unique new IP.") s i
  | i, fuel + 1, s =>
      match renew_tor_circuit s (oracle i).ctrl with
      | .error e => .error e s (i + 1)
      | .ok s1 =>
        match make_request_through_tor (oracle i).probe with
        | .error e => .error e s1 (i + 1)
        | .ok new_tor_ip =>
          if prevent_ips_match && new_tor_ip == s1.local_ip then
            rotate_ip_loop oracle unique prevent_ips_match (i + 1) fuel s1
          else if unique && s1.used_ips.contains new_tor_ip then
            if s1.max_rotations ≤ s1.used_ips.length then
              .error (.runtimeError "All possible IPs have been exhausted.") s1 (i + 1)
            else
              rotate_ip_loop oracle unique prevent_ips_match (i + 1) fuel s1
          else
            .ok new_tor_ip { s1 with used_ips := s1.used_ips ++ [new_tor_ip] } (i + 1)

/-- src/rotating_ip.py line 97, `rotate_ip(unique=False, prevent_ips_match=True)`
with explicit arguments (the Python defaults are `unique=False`,
`prevent_ips_match=True`; see `rotate_ip_defaults`). -/
def rotate_ip (s : TorIpRotator) (oracle : Nat → Attempt)
    (unique prevent_ips_match : Bool) : RotateResult :=
  rotate_ip_loop oracle unique prevent_ips_match 0 s.max_rotations s

/-- A call `self.rotate_ip()` with no arguments: Python fills in the
declared defaults `unique=False, prevent_ips_match=True`. -/
def rotate_ip_defaults (s : TorIpRotator) (oracle : Nat → Attempt) : RotateResult :=
  rotate_ip s oracle false true

end TorIpRotator

/-- The state of a `TorProxy` instance (src/rotating_proxy.py, lines
22–33): identical to `TorIpRotator` up to the field names
`tor_mount_proxy` and `used_proxies`. -/
structure TorProxy where
  tor_ip : String
  local_ip : String
  tor_data : List (String × List String)
  max_rotations : Nat
  tor_mount_proxy : List (String × Option String)
  tor_port : Int
  used_proxies : List String
  ip_service_url : String
  tor_password : String
  max_circuit_dirtness : Int
deriving DecidableEq, Repr

namespace TorProxy

/-- src/rotating_proxy.py lines 58–65, `make_request_through_tor`: same
body as the TorIpRotator method (only `httpx.RequestError` is caught and
wrapped; `HTTPStatusError` escapes unwrapped). -/
def make_request_through_tor (get : HttpxResult) : Except PyError String :=
  match get with
  | .transportError msg =>
      .error (.runtimeError ("Failed to make a request through Tor: " ++ msg))
  | .response st body =>
      if is_success st then .ok body else .error (.httpStatusError st)

/-- src/rotating_proxy.py lines 70–71, `__extract_circuit_status`. -/
def extract_circuit_status (data : String) : List String :=
  splitlines data

/-- src/rotating_proxy.py lines 73–81, `__renew_tor_circuit` (intended
body; the source text carries stray indentation here). -/
def renew_tor_circuit (s : TorProxy) (ctrl : ControllerResult) :
    Except PyError TorProxy :=
  match ctrl with
  | .failure msg => .error (.controllerError msg)
  | .status info =>
      .ok { s with tor_data :=
              dictSet s.tor_data "circuit_status" (extract_circuit_status info) }

/-- src/rotating_proxy.py lines 35–53, `__init__`: same flow as
`TorIpRotator.init` — config checks first, then the direct
`__check_local_proxy` probe, then `__check_tor_proxy` through
`make_request_through_tor` while `tor_mount_proxy` is still `{}`, and
only then the mount-dict assignment. -/
def init (password ip_service_url : String) (socket : Option String)
    (tor_port : Int) (max_circuit_dirtness : Int) (max_rotations : Nat)
    (probe1 probe2 : HttpxResult) :
    Except PyError TorProxy × List NetCall :=
  if password = "" then
    (.error (.valueError
      "Tor password is not set. Ensure the PASSWORD environment variable is configured."), [])
  else if ip_service_url = "" then
    (.error (.valueError
      "Service URL is not set. Ensure the SERVICE_URL environment variable is configured."), [])
  else
    let call1 : NetCall := ⟨ip_service_url, []⟩
    match getRaiseForStatusText probe1 with
    | .error e => (.error e, [call1])
    | .ok localIp =>
      let call2 : NetCall := ⟨ip_service_url, []⟩
      match make_request_through_tor probe2 with
      | .error e => (.error e, [call1, call2])
      | .ok torIp =>
        (.ok { tor_ip := torIp
             , local_ip := localIp
             , tor_data := []
             , max_rotations := max_rotations
             , tor_mount_proxy := [("http://", socket), ("https://", socket)]
             , tor_port := tor_port
             , used_proxies := []
             , ip_service_url := ip_service_url
             , tor_password := password
             , max_circuit_dirtness := max_circuit_dirtness },
         [call1, call2])

/-- Result of a `rotate_proxy` call, mirroring `TorIpRotator.RotateResult`. -/
inductive RotateResult where
  | ok (ip : String) (s : TorProxy) (attempts : Nat)
  | error (e : PyError) (s : TorProxy) (attempts : Nat)
deriving DecidableEq, Repr

/-- Number of renewal attempts a rotate_proxy call performed. -/
def RotateResult.attempts : RotateResult → Nat
  | .ok _ _ n => n
  | .error _ _ n => n

/-- Instance state after a rotate_proxy call. -/
def RotateResult.state : RotateResult → TorProxy
  | .ok _ s _ => s
  | .error _ s _ => s

/-- The `for _ in range(self.max_rotations)` loop of `rotate_proxy`
(src/rotating_proxy.py lines 95–111), identical to the TorIpRotator loop
except for the history field name and the fall-out message
`"Max proxy rotations reached. Failed to get a unique new IP."`. -/
def rotate_proxy_loop (oracle : Nat → Attempt) (unique prevent_ips_match : Bool) :
    Nat → Nat → TorProxy → RotateResult
  | i, 0, s =>
      .error (.runtimeError
        "Max proxy rotations reached. Failed to get a unique new IP.") s i
  | i, fuel + 1, s =>
      match renew_tor_circuit s (oracle i).ctrl with
      | .error e => .error e s (i + 1)
      | .ok s1 =>
        match make_request_through_tor (oracle i).probe with
        | .error e => .error e s1 (i + 1)
        | .ok new_tor_ip =>
          if prevent_ips_match && new_tor_ip == s1.local_ip then
            rotate_proxy_loop oracle unique prevent_ips_match (i + 1) fuel s1
          else if unique && s1.used_proxies.contains new_tor_ip then
            if s1.max_rotations ≤ s1.used_proxies.length then
              .error (.runtimeError "All possible IPs have been exhausted.") s1 (i + 1)
            else
              rotate_proxy_loop oracle unique prevent_ips_match (i + 1) fuel s1
          else
            .ok new_tor_ip { s1 with used_proxies := s1.used_proxies ++ [new_tor_ip] } (i + 1)

/-- src/rotating_proxy.py line 95, `rotate_proxy(unique=False,
prevent_ips_match=True)` with explicit arguments. -/
def rotate_proxy (s : TorProxy) (oracle : Nat → Attempt)
    (unique prevent_ips_match : Bool) : RotateResult :=
  rotate_proxy_loop oracle unique prevent_ips_match 0 s.max_rotations s

/-- A call `self.rotate_proxy()` with no arguments: Python fills in the
declared defaults `unique=False, prevent_ips_match=True`. -/
def rotate_proxy_defaults (s : TorProxy) (oracle : Nat → Attempt) : RotateResult :=
  rotate_proxy s oracle false true

end TorProxy

/-- Statement helper (not part of the embedding): the environment behaviour
`a` makes one loop iteration of `rotate_ip` / `rotate_proxy` take a
`continue` branch, on an instance whose relevant fields are `local_ip`,
`used` (the history list) and `maxr` (`max_rotations`): the renewal and the
probe both succeed, and the probed address is rejected either by the
baseline check or by the uniqueness check with the history still below
`maxr` (so that no exception is raised). -/
def attemptRejected (local_ip : String) (used : List String) (maxr : Nat)
    (a : Attempt) (unique prevent_ips_match : Bool) : Bool :=
  match a.ctrl with
  | .failure _ => false
  | .status _ =>
    match TorIpRotator.make_request_through_tor a.probe with
    | .error _ => false
    | .ok ip =>
        (prevent_ips_match && ip == local_ip) ||
        (unique && used.contains ip && decide (used.length < maxr))

/-- Discriminator for the RuntimeError wrap produced by the `except`
clause of `make_request_through_tor`. -/
def PyError.isRuntimeError : PyError → Bool
  | .runtimeError _ => true
  | _ => false

/-- Concrete TorIpRotator instance for counterexamples and witnesses:
baseline `"5.5.5.5"`, construction-time anonymized reading `"9.9.9.9"`,
empty history, three allowed rotations. -/
def sampleIp : TorIpRotator :=
  { tor_ip := "9.9.9.9", local_ip := "5.5.5.5", tor_data := [], max_rotations := 3
  , tor_mount_ip := [("http://", some "socks5://127.0.0.1:9050"), ("https://", some "socks5://127.0.0.1:9050")]
  , tor_port := 9051, used_ips := [], ip_service_url := "http://icanhazip.com"
  , tor_password := "pw", max_circuit_dirtness := 10 }

/-- Concrete TorProxy instance mirroring `sampleIp`. -/
def sampleProxy : TorProxy :=
  { tor_ip := "9.9.9.9", local_ip := "5.5.5.5", tor_data := [], max_rotations := 3
  , tor_mount_proxy := [("http://", some "socks5://127.0.0.1:9050"), ("https://", some "socks5://127.0.0.1:9050")]
  , tor_port := 9051, used_proxies := [], ip_service_url := "http://icanhazip.com"
  , tor_password := "pw", max_circuit_dirtness := 10 }

/-- Environment in which every renewal succeeds and every probe reads
`"1.2.3.4"`. -/
def okOracle : Nat → Attempt :=
  fun _ => ⟨.status "CIRC 1 BUILT", .response 200 "1.2.3.4"⟩

/-- Environment in which every renewal succeeds and every probe reads
`"1.1.1.1"`. -/
def dupOracle : Nat → Attempt :=
  fun _ => ⟨.status "CIRC 1 BUILT", .response 200 "1.1.1.1"⟩

/-- Environment in which the Tor controller always fails. -/
def ctrlFailOracle : Nat → Attempt :=
  fun _ => ⟨.failure "connection refused", .response 200 "1.2.3.4"⟩

/-- Instance state produced by a successful `rotate_ip` on `sampleIp`
under `okOracle`: `"1.2.3.4"` appended, circuit status recorded, and
`tor_ip` still at its construction-time value `"9.9.9.9"`. -/
def sampleIpAfter : TorIpRotator :=
  { sampleIp with used_ips := ["1.2.3.4"], tor_data := [("circuit_status", ["CIRC 1 BUILT"])] }

/-- Proxy twin of `sampleIpAfter`. -/
def sampleProxyAfter : TorProxy :=
  { sampleProxy with used_proxies := ["1.2.3.4"], tor_data := [("circuit_status", ["CIRC 1 BUILT"])] }

/-- TorIpRotator whose history already holds as many addresses as
`max_rotations` allows (`1`). -/
def fullHistIp : TorIpRotator :=
  { sampleIp with used_ips := ["1.1.1.1"], max_rotations := 1 }

/-- Proxy twin of `fullHistIp`. -/
def fullHistProxy : TorProxy :=
  { sampleProxy with used_proxies := ["1.1.1.1"], max_rotations := 1 }

/-- TorIpRotator that already saw `"1.2.3.4"` (for re-accepting a
duplicate with uniqueness off). -/
def seenIp : TorIpRotator :=
  { sampleIp with used_ips := ["1.2.3.4"] }

/-- Proxy twin of `seenIp`. -/
def seenProxy : TorProxy :=
  { sampleProxy with used_proxies := ["1.2.3.4"] }

/-- The spec scenario of claim C8: the instance's baseline equals the
construction-time anonymized reading `"5.5.5.5"` and three rotations are
allowed. -/
def c8State : TorIpRotator :=
  { sampleIp with tor_ip := "5.5.5.5", local_ip := "5.5.5.5" }

/-- The C8 oracle: the first two probes read the baseline again, the
third reads `"1.2.3.4"`. -/
def c8Oracle : Nat → Attempt :=
  fun k =>
    if k < 2 then ⟨.status "CIRC 1 BUILT", .response 200 "5.5.5.5"⟩
    else ⟨.status "CIRC 3 BUILT", .response 200 "1.2.3.4"⟩

/-- Environment in which every renewal succeeds but every probe reads the
baseline `"5.5.5.5"` again. -/
def baselineOracle : Nat → Attempt :=
  fun _ => ⟨.status "CIRC 1 BUILT", .response 200 "5.5.5.5"⟩

/-- Renewing the circuit, when it does not raise, changes only `tor_data`. -/
theorem ip_renew_ok_fields {s s1 : TorIpRotator} {c : ControllerResult}
    (h : TorIpRotator.renew_tor_circuit s c = .ok s1) :
    s1.local_ip = s.local_ip ∧ s1.used_ips = s.used_ips ∧
    s1.max_rotations = s.max_rotations ∧ s1.tor_ip = s.tor_ip := by
  cases c with
  | failure m => simp [TorIpRotator.renew_tor_circuit] at h
  | status info =>
      simp only [TorIpRotator.renew_tor_circuit, Except.ok.injEq] at h
      subst h
      simp

/-- Inversion of a successful run of the `rotate_ip` loop: the accepted
address is appended exactly once, every other field except `tor_data` is
unchanged, the address passed both enabled acceptance checks, and between
one and `fuel` iterations were executed. -/
theorem ip_loop_ok_inv {oracle : Nat → Attempt} {u p : Bool} :
    ∀ (fuel i : Nat) (s : TorIpRotator) {ip : String} {s' : TorIpRotator} {n : Nat},
    TorIpRotator.rotate_ip_loop oracle u p i fuel s = .ok ip s' n →
    s'.used_ips = s.used_ips ++ [ip] ∧ s'.local_ip = s.local_ip ∧
    s'.tor_ip = s.tor_ip ∧ s'.max_rotations = s.max_rotations ∧
    (p = true → ip ≠ s.local_ip) ∧
    (u = true → s.used_ips.contains ip = false) ∧
    i < n ∧ n ≤ i + fuel := by
  intro fuel
  induction fuel with
  | zero =>
      intro i s ip s' n h
      simp [TorIpRotator.rotate_ip_loop] at h
  | succ fuel ih =>
      intro i s ip s' n h
      rw [TorIpRotator.rotate_ip_loop] at h
      cases hc : TorIpRotator.renew_tor_circuit s (oracle i).ctrl with
      | error e => simp [hc] at h
      | ok s1 =>
          simp only [hc] at h
          obtain ⟨hl, hu, hm, ht⟩ := ip_renew_ok_fields hc
          cases hp : TorIpRotator.make_request_through_tor (oracle i).probe with
          | error e => simp [hp] at h
          | ok new_ip =>
              simp only [hp] at h
              by_cases hb : (p && (new_ip == s1.local_ip)) = true
              · rw [if_pos hb] at h
                obtain ⟨h1, h2, h3, h4, h5, h6, h7, h8⟩ := ih (i + 1) s1 h
                refine ⟨by rw [h1, hu], by rw [h2, hl], by rw [h3, ht],
                        by rw [h4, hm], ?_, ?_, by omega, by omega⟩
                · intro hpt; rw [hl] at h5; exact h5 hpt
                · intro hut; rw [hu] at h6; exact h6 hut
              · rw [if_neg hb] at h
                by_cases hq : (u && s1.used_ips.contains new_ip) = true
                · rw [if_pos hq] at h
                  by_cases hfull : s1.max_rotations ≤ s1.used_ips.length
                  · rw [if_pos hfull] at h; simp at h
                  · rw [if_neg hfull] at h
                    obtain ⟨h1, h2, h3, h4, h5, h6, h7, h8⟩ := ih (i + 1) s1 h
                    refine ⟨by rw [h1, hu], by rw [h2, hl], by rw [h3, ht],
                            by rw [h4, hm], ?_, ?_, by omega, by omega⟩
                    · intro hpt; rw [hl] at h5; exact h5 hpt
                    · intro hut; rw [hu] at h6; exact h6 hut
                · rw [if_neg hq] at h
                  simp only [TorIpRotator.RotateResult.ok.injEq] at h
                  obtain ⟨hip, hs', hn⟩ := h
                  subst hip; subst hs'; subst hn
                  refine ⟨by simp [hu], by simp [hl], by simp [ht], by simp [hm],
                          ?_, ?_, by omega, by omega⟩
                  · intro hpt heq
                    rw [hpt] at hb
                    rw [hl] at hb
                    simp [heq] at hb
                  · intro hut
                    rw [hut] at hq
                    rw [hu] at hq
                    simpa using hq

/-- Inversion of a failing run of the `rotate_ip` loop: whatever exception
was raised, the history list and every field except `tor_data` are exactly
as before the call, and at most `fuel` iterations were executed. -/
theorem ip_loop_error_inv {oracle : Nat → Attempt} {u p : Bool} :
    ∀ (fuel i : Nat) (s : TorIpRotator) {e : PyError} {s' : TorIpRotator} {n : Nat},
    TorIpRotator.rotate_ip_loop oracle u p i fuel s = .error e s' n →
    s'.used_ips = s.used_ips ∧ s'.local_ip = s.local_ip ∧
    s'.tor_ip = s.tor_ip ∧ s'.max_rotations = s.max_rotations ∧
    i ≤ n ∧ n ≤ i + fuel := by
  intro fuel
  induction fuel with
  | zero =>
      intro i s e s' n h
      simp only [TorIpRotator.rotate_ip_loop, TorIpRotator.RotateResult.error.injEq] at h
      obtain ⟨_, hs', hn⟩ := h
      subst hs'; subst hn
      exact ⟨rfl, rfl, rfl, rfl, Nat.le_refl i, by omega⟩
  | succ fuel ih =>
      intro i s e s' n h
      rw [TorIpRotator.rotate_ip_loop] at h
      cases hc : TorIpRotator.renew_tor_circuit s (oracle i).ctrl with
      | error e1 =>
          simp only [hc, TorIpRotator.RotateResult.error.injEq] at h
          obtain ⟨_, hs', hn⟩ := h
          subst hs'; subst hn
          exact ⟨rfl, rfl, rfl, rfl, by omega, by omega⟩
      | ok s1 =>
          simp only [hc] at h
          obtain ⟨hl, hu, hm, ht⟩ := ip_renew_ok_fields hc
          cases hp : TorIpRotator.make_request_through_tor (oracle i).probe with
          | error e1 =>
              simp only [hp, TorIpRotator.RotateResult.error.injEq] at h
              obtain ⟨_, hs', hn⟩ := h
              subst hs'; subst hn
              exact ⟨hu, hl, ht, hm, by omega, by omega⟩
          | ok new_ip =>
              simp only [hp] at h
              by_cases hb : (p && (new_ip == s1.local_ip)) = true
              · rw [if_pos hb] at h
                obtain ⟨h1, h2, h3, h4, h5, h6⟩ := ih (i + 1) s1 h
                exact ⟨by rw [h1, hu], by rw [h2, hl], by rw [h3, ht],
                       by rw [h4, hm], by omega, by omega⟩
              · rw [if_neg hb] at h
                by_cases hq : (u && s1.used_ips.contains new_ip) = true
                · rw [if_pos hq] at h
                  by_cases hfull : s1.max_rotations ≤ s1.used_ips.length
                  · rw [if_pos hfull] at h
                    simp only [TorIpRotator.RotateResult.error.injEq] at h
                    obtain ⟨_, hs', hn⟩ := h
                    subst hs'; subst hn
                    exact ⟨hu, hl, ht, hm, by omega, by omega⟩
                  · rw [if_neg hfull] at h
                    obtain ⟨h1, h2, h3, h4, h5, h6⟩ := ih (i + 1) s1 h
                    exact ⟨by rw [h1, hu], by rw [h2, hl], by rw [h3, ht],
                           by rw [h4, hm], by omega, by omega⟩
                · rw [if_neg hq] at h
                  simp at h

/-- If every one of the `fuel` remaining iterations takes a `continue`
branch (see `attemptRejected`), the `rotate_ip` loop runs all of them and
falls out with the max-rotations RuntimeError, leaving the history
untouched. -/
theorem ip_loop_all_rejected {oracle : Nat → Attempt} {u p : Bool} :
    ∀ (fuel i : Nat) (s : TorIpRotator),
    (∀ k, i ≤ k → k < i + fuel →
      attemptRejected s.local_ip s.used_ips s.max_rotations (oracle k) u p = true) →
    ∃ s', TorIpRotator.rotate_ip_loop oracle u p i fuel s =
        .error (.runtimeError
          "Max IP rotations reached. Failed to get a unique new IP.") s' (i + fuel) ∧
      s'.used_ips = s.used_ips := by
  intro fuel
  induction fuel with
  | zero =>
      intro i s _
      exact ⟨s, by simp [TorIpRotator.rotate_ip_loop], rfl⟩
  | succ fuel ih =>
      intro i s hrej
      have hi := hrej i (Nat.le_refl i) (by omega)
      rw [TorIpRotator.rotate_ip_loop]
      unfold attemptRejected at hi
      cases hren : TorIpRotator.renew_tor_circuit s (oracle i).ctrl with
      | error e =>
          cases hc : (oracle i).ctrl with
          | failure m => rw [hc] at hi; simp at hi
          | status info =>
              rw [hc] at hren
              simp [TorIpRotator.renew_tor_circuit] at hren
      | ok s1 =>
          simp only [hren]
          obtain ⟨hl, hu, hm, _⟩ := ip_renew_ok_fields hren
          cases hc : (oracle i).ctrl with
          | failure m =>
              rw [hc] at hren
              simp [TorIpRotator.renew_tor_circuit] at hren
          | status info =>
              rw [hc] at hi
              cases hp : TorIpRotator.make_request_through_tor (oracle i).probe with
              | error e1 => rw [hp] at hi; simp at hi
              | ok new_ip =>
                  rw [hp] at hi
                  simp only [hp]
                  simp only [Bool.or_eq_true, Bool.and_eq_true, decide_eq_true_eq] at hi
                  have hnext : ∀ k, i + 1 ≤ k → k < (i + 1) + fuel →
                      attemptRejected s1.local_ip s1.used_ips s1.max_rotations (oracle k) u p = true := by
                    intro k hk1 hk2
                    rw [hl, hu, hm]
                    exact hrej k (by omega) (by omega)
                  have hcont : ∃ s', TorIpRotator.rotate_ip_loop oracle u p (i + 1) fuel s1 =
                      .error (.runtimeError
                        "Max IP rotations reached. Failed to get a unique new IP.") s' (i + (fuel + 1)) ∧
                      s'.used_ips = s.used_ips := by
                    obtain ⟨s', hloop, hused⟩ := ih (i + 1) s1 hnext
                    refine ⟨s', ?_, by rw [hused, hu]⟩
                    rw [hloop]
                    congr 1
                    omega
                  cases hi with
                  | inl hbase =>
                      have hb : (p && (new_ip == s1.local_ip)) = true := by
                        rw [hl]
                        simp [hbase.1, hbase.2]
                      rw [if_pos hb]
                      exact hcont
                  | inr hdup =>
                      by_cases hb : (p && (new_ip == s1.local_ip)) = true
                      · rw [if_pos hb]
                        exact hcont
                      · rw [if_neg hb]
                        have hq : (u && s1.used_ips.contains new_ip) = true := by
                          rw [hu, hdup.1.1]
                          simp only [Bool.true_and]
                          exact hdup.1.2
                        rw [if_pos hq]
                        have hlt : ¬ s1.max_rotations ≤ s1.used_ips.length := by
                          rw [hu, hm]
                          omega
                        rw [if_neg hlt]
                        exact hcont

/-- If the very first attempt of a `unique=True` rotate call probes an
address already present in `used_ips` (and not filtered out by the
baseline check) while the history length has reached `max_rotations`, the
call raises the exhausted RuntimeError after exactly one renewal attempt,
with the history unchanged. -/
theorem ip_dup_exhausted {oracle : Nat → Attempt} {p : Bool} {s : TorIpRotator}
    {info ip : String}
    (hm : 1 ≤ s.max_rotations)
    (hc : (oracle 0).ctrl = .status info)
    (hp : TorIpRotator.make_request_through_tor (oracle 0).probe = .ok ip)
    (hbase : (p && (ip == s.local_ip)) = false)
    (hdup : s.used_ips.contains ip = true)
    (hfull : s.max_rotations ≤ s.used_ips.length) :
    ∃ s', TorIpRotator.rotate_ip s oracle true p =
        .error (.runtimeError "All possible IPs have been exhausted.") s' 1 ∧
      s'.used_ips = s.used_ips := by
  rw [TorIpRotator.rotate_ip]
  obtain ⟨m, hmr⟩ : ∃ m, s.max_rotations = m + 1 := ⟨s.max_rotations - 1, by omega⟩
  rw [hmr]
  rw [TorIpRotator.rotate_ip_loop]
  cases hren : TorIpRotator.renew_tor_circuit s (oracle 0).ctrl with
  | error e =>
      rw [hc] at hren
      simp [TorIpRotator.renew_tor_circuit] at hren
  | ok s1 =>
      simp only [hren]
      obtain ⟨hl, hu, hmx, _⟩ := ip_renew_ok_fields hren
      simp only [hp]
      have hb : ¬ (p && (ip == s1.local_ip)) = true := by
        rw [hl, hbase]
        simp
      rw [if_neg hb]
      have hq : (true && s1.used_ips.contains ip) = true := by
        rw [hu]
        simp only [Bool.true_and]
        exact hdup
      rw [if_pos hq]
      have hfull1 : s1.max_rotations ≤ s1.used_ips.length := by
        rw [hu, hmx]
        exact hfull
      rw [if_pos hfull1]
      exact ⟨s1, rfl, hu⟩

/-- The two `make_request_through_tor` methods have identical bodies. -/
theorem proxy_make_request_eq (g : HttpxResult) :
    TorProxy.make_request_through_tor g = TorIpRotator.make_request_through_tor g := rfl

/-- Renewing the circuit, when it does not raise, changes only `tor_data`. -/
theorem proxy_renew_ok_fields {s s1 : TorProxy} {c : ControllerResult}
    (h : TorProxy.renew_tor_circuit s c = .ok s1) :
    s1.local_ip = s.local_ip ∧ s1.used_proxies = s.used_proxies ∧
    s1.max_rotations = s.max_rotations ∧ s1.tor_ip = s.tor_ip := by
  cases c with
  | failure m => simp [TorProxy.renew_tor_circuit] at h
  | status info =>
      simp only [TorProxy.renew_tor_circuit, Except.ok.injEq] at h
      subst h
      simp

/-- Inversion of a successful run of the `rotate_proxy` loop: the accepted
address is appended exactly once, every other field except `tor_data` is
unchanged, the address passed both enabled acceptance checks, and between
one and `fuel` iterations were executed. -/
theorem proxy_loop_ok_inv {oracle : Nat → Attempt} {u p : Bool} :
    ∀ (fuel i : Nat) (s : TorProxy) {ip : String} {s' : TorProxy} {n : Nat},
    TorProxy.rotate_proxy_loop oracle u p i fuel s = .ok ip s' n →
    s'.used_proxies = s.used_proxies ++ [ip] ∧ s'.local_ip = s.local_ip ∧
    s'.tor_ip = s.tor_ip ∧ s'.max_rotations = s.max_rotations ∧
    (p = true → ip ≠ s.local_ip) ∧
    (u = true → s.used_proxies.contains ip = false) ∧
    i < n ∧ n ≤ i + fuel := by
  intro fuel
  induction fuel with
  | zero =>
      intro i s ip s' n h
      simp [TorProxy.rotate_proxy_loop] at h
  | succ fuel ih =>
      intro i s ip s' n h
      rw [TorProxy.rotate_proxy_loop] at h
      cases hc : TorProxy.renew_tor_circuit s (oracle i).ctrl with
      | error e => simp [hc] at h
      | ok s1 =>
          simp only [hc] at h
          obtain ⟨hl, hu, hm, ht⟩ := proxy_renew_ok_fields hc
          cases hp : TorProxy.make_request_through_tor (oracle i).probe with
          | error e => simp [hp] at h
          | ok new_ip =>
              simp only [hp] at h
              by_cases hb : (p && (new_ip == s1.local_ip)) = true
              · rw [if_pos hb] at h
                obtain ⟨h1, h2, h3, h4, h5, h6, h7, h8⟩ := ih (i + 1) s1 h
                refine ⟨by rw [h1, hu], by rw [h2, hl], by rw [h3, ht],
                        by rw [h4, hm], ?_, ?_, by omega, by omega⟩
                · intro hpt; rw [hl] at h5; exact h5 hpt
                · intro hut; rw [hu] at h6; exact h6 hut
              · rw [if_neg hb] at h
                by_cases hq : (u && s1.used_proxies.contains new_ip) = true
                · rw [if_pos hq] at h
                  by_cases hfull : s1.max_rotations ≤ s1.used_proxies.length
                  · rw [if_pos hfull] at h; simp at h
                  · rw [if_neg hfull] at h
                    obtain ⟨h1, h2, h3, h4, h5, h6, h7, h8⟩ := ih (i + 1) s1 h
                    refine ⟨by rw [h1, hu], by rw [h2, hl], by rw [h3, ht],
                            by rw [h4, hm], ?_, ?_, by omega, by omega⟩
                    · intro hpt; rw [hl] at h5; exact h5 hpt
                    · intro hut; rw [hu] at h6; exact h6 hut
                · rw [if_neg hq] at h
                  simp only [TorProxy.RotateResult.ok.injEq] at h
                  obtain ⟨hip, hs', hn⟩ := h
                  subst hip; subst hs'; subst hn
                  refine ⟨by simp [hu], by simp [hl], by simp [ht], by simp [hm],
                          ?_, ?_, by omega, by omega⟩
                  · intro hpt heq
                    rw [hpt] at hb
                    rw [hl] at hb
                    simp [heq] at hb
                  · intro hut
                    rw [hut] at hq
                    rw [hu] at hq
                    simpa using hq

/-- Inversion of a failing run of the `rotate_proxy` loop: whatever exception
was raised, the history list and every field except `tor_data` are exactly
as before the call, and at most `fuel` iterations were executed. -/
theorem proxy_loop_error_inv {oracle : Nat → Attempt} {u p : Bool} :
    ∀ (fuel i : Nat) (s : TorProxy) {e : PyError} {s' : TorProxy} {n : Nat},
    TorProxy.rotate_proxy_loop oracle u p i fuel s = .error e s' n →
    s'.used_proxies = s.used_proxies ∧ s'.local_ip = s.local_ip ∧
    s'.tor_ip = s.tor_ip ∧ s'.max_rotations = s.max_rotations ∧
    i ≤ n ∧ n ≤ i + fuel := by
  intro fuel
  induction fuel with
  | zero =>
      intro i s e s' n h
      simp only [TorProxy.rotate_proxy_loop, TorProxy.RotateResult.error.injEq] at h
      obtain ⟨_, hs', hn⟩ := h
      subst hs'; subst hn
      exact ⟨rfl, rfl, rfl, rfl, Nat.le_refl i, by omega⟩
  | succ fuel ih =>
      intro i s e s' n h
      rw [TorProxy.rotate_proxy_loop] at h
      cases hc : TorProxy.renew_tor_circuit s (oracle i).ctrl with
      | error e1 =>
          simp only [hc, TorProxy.RotateResult.error.injEq] at h
          obtain ⟨_, hs', hn⟩ := h
          subst hs'; subst hn
          exact ⟨rfl, rfl, rfl, rfl, by omega, by omega⟩
      | ok s1 =>
          simp only [hc] at h
          obtain ⟨hl, hu, hm, ht⟩ := proxy_renew_ok_fields hc
          cases hp : TorProxy.make_request_through_tor (oracle i).probe with
          | error e1 =>
              simp only [hp, TorProxy.RotateResult.error.injEq] at h
              obtain ⟨_, hs', hn⟩ := h
              subst hs'; subst hn
              exact ⟨hu, hl, ht, hm, by omega, by omega⟩
          | ok new_ip =>
              simp only [hp] at h
              by_cases hb : (p && (new_ip == s1.local_ip)) = true
              · rw [if_pos hb] at h
                obtain ⟨h1, h2, h3, h4, h5, h6⟩ := ih (i + 1) s1 h
                exact ⟨by rw [h1, hu], by rw [h2, hl], by rw [h3, ht],
                       by rw [h4, hm], by omega, by omega⟩
              · rw [if_neg hb] at h
                by_cases hq : (u && s1.used_proxies.contains new_ip) = true
                · rw [if_pos hq] at h
                  by_cases hfull : s1.max_rotations ≤ s1.used_proxies.length
                  · rw [if_pos hfull] at h
                    simp only [TorProxy.RotateResult.error.injEq] at h
                    obtain ⟨_, hs', hn⟩ := h
                    subst hs'; subst hn
                    exact ⟨hu, hl, ht, hm, by omega, by omega⟩
                  · rw [if_neg hfull] at h
                    obtain ⟨h1, h2, h3, h4, h5, h6⟩ := ih (i + 1) s1 h
                    exact ⟨by rw [h1, hu], by rw [h2, hl], by rw [h3, ht],
                           by rw [h4, hm], by omega, by omega⟩
                · rw [if_neg hq] at h
                  simp at h

/-- If every one of the `fuel` remaining iterations takes a `continue`
branch (see `attemptRejected`), the `rotate_proxy` loop runs all of them and
falls out with the max-rotations RuntimeError, leaving the history
untouched. -/
theorem proxy_loop_all_rejected {oracle : Nat → Attempt} {u p : Bool} :
    ∀ (fuel i : Nat) (s : TorProxy),
    (∀ k, i ≤ k → k < i + fuel →
      attemptRejected s.local_ip s.used_proxies s.max_rotations (oracle k) u p = true) →
    ∃ s', TorProxy.rotate_proxy_loop oracle u p i fuel s =
        .error (.runtimeError
          "Max proxy rotations reached. Failed to get a unique new IP.") s' (i + fuel) ∧
      s'.used_proxies = s.used_proxies := by
  intro fuel
  induction fuel with
  | zero =>
      intro i s _
      exact ⟨s, by simp [TorProxy.rotate_proxy_loop], rfl⟩
  | succ fuel ih =>
      intro i s hrej
      have hi := hrej i (Nat.le_refl i) (by omega)
      rw [TorProxy.rotate_proxy_loop]
      unfold attemptRejected at hi
      simp only [← proxy_make_request_eq] at hi
      cases hren : TorProxy.renew_tor_circuit s (oracle i).ctrl with
      | error e =>
          cases hc : (oracle i).ctrl with
          | failure m => rw [hc] at hi; simp at hi
          | status info =>
              rw [hc] at hren
              simp [TorProxy.renew_tor_circuit] at hren
      | ok s1 =>
          simp only [hren]
          obtain ⟨hl, hu, hm, _⟩ := proxy_renew_ok_fields hren
          cases hc : (oracle i).ctrl with
          | failure m =>
              rw [hc] at hren
              simp [TorProxy.renew_tor_circuit] at hren
          | status info =>
              rw [hc] at hi
              cases hp : TorProxy.make_request_through_tor (oracle i).probe with
              | error e1 => rw [hp] at hi; simp at hi
              | ok new_ip =>
                  rw [hp] at hi
                  simp only [hp]
                  simp only [Bool.or_eq_true, Bool.and_eq_true, decide_eq_true_eq] at hi
                  have hnext : ∀ k, i + 1 ≤ k → k < (i + 1) + fuel →
                      attemptRejected s1.local_ip s1.used_proxies s1.max_rotations (oracle k) u p = true := by
                    intro k hk1 hk2
                    rw [hl, hu, hm]
                    exact hrej k (by omega) (by omega)
                  have hcont : ∃ s', TorProxy.rotate_proxy_loop oracle u p (i + 1) fuel s1 =
                      .error (.runtimeError
                        "Max proxy rotations reached. Failed to get a unique new IP.") s' (i + (fuel + 1)) ∧
                      s'.used_proxies = s.used_proxies := by
                    obtain ⟨s', hloop, hused⟩ := ih (i + 1) s1 hnext
                    refine ⟨s', ?_, by rw [hused, hu]⟩
                    rw [hloop]
                    congr 1
                    omega
                  cases hi with
                  | inl hbase =>
                      have hb : (p && (new_ip == s1.local_ip)) = true := by
                        rw [hl]
                        simp [hbase.1, hbase.2]
                      rw [if_pos hb]
                      exact hcont
                  | inr hdup =>
                      by_cases hb : (p && (new_ip == s1.local_ip)) = true
                      · rw [if_pos hb]
                        exact hcont
                      · rw [if_neg hb]
                        have hq : (u && s1.used_proxies.contains new_ip) = true := by
                          rw [hu, hdup.1.1]
                          simp only [Bool.true_and]
                          exact hdup.1.2
                        rw [if_pos hq]
                        have hlt : ¬ s1.max_rotations ≤ s1.used_proxies.length := by
                          rw [hu, hm]
                          omega
                        rw [if_neg hlt]
                        exact hcont

/-- If the very first attempt of a `unique=True` rotate call probes an
address already present in `used_proxies` (and not filtered out by the
baseline check) while the history length has reached `max_rotations`, the
call raises the exhausted RuntimeError after exactly one renewal attempt,
with the history unchanged. -/
theorem proxy_dup_exhausted {oracle : Nat → Attempt} {p : Bool} {s : TorProxy}
    {info ip : String}
    (hm : 1 ≤ s.max_rotations)
    (hc : (oracle 0).ctrl = .status info)
    (hp : TorProxy.make_request_through_tor (oracle 0).probe = .ok ip)
    (hbase : (p && (ip == s.local_ip)) = false)
    (hdup : s.used_proxies.contains ip = true)
    (hfull : s.max_rotations ≤ s.used_proxies.length) :
    ∃ s', TorProxy.rotate_proxy s oracle true p =
        .error (.runtimeError "All possible IPs have been exhausted.") s' 1 ∧
      s'.used_proxies = s.used_proxies := by
  rw [TorProxy.rotate_proxy]
  obtain ⟨m, hmr⟩ : ∃ m, s.max_rotations = m + 1 := ⟨s.max_rotations - 1, by omega⟩
  rw [hmr]
  rw [TorProxy.rotate_proxy_loop]
  cases hren : TorProxy.renew_tor_circuit s (oracle 0).ctrl with
  | error e =>
      rw [hc] at hren
      simp [TorProxy.renew_tor_circuit] at hren
  | ok s1 =>
      simp only [hren]
      obtain ⟨hl, hu, hmx, _⟩ := proxy_renew_ok_fields hren
      simp only [hp]
      have hb : ¬ (p && (ip == s1.local_ip)) = true := by
        rw [hl, hbase]
        simp
      rw [if_neg hb]
      have hq : (true && s1.used_proxies.contains ip) = true := by
        rw [hu]
        simp only [Bool.true_and]
        exact hdup
      rw [if_pos hq]
      have hfull1 : s1.max_rotations ≤ s1.used_proxies.length := by
        rw [hu, hmx]
        exact hfull
      rw [if_pos hfull1]
      exact ⟨s1, rfl, hu⟩

/-- A `rotate_ip` call never executes more loop iterations (renewal
attempts) than `max_rotations`. -/
theorem ip_attempts_le (s : TorIpRotator) (oracle : Nat → Attempt) (u p : Bool) :
    (TorIpRotator.rotate_ip s oracle u p).attempts ≤ s.max_rotations := by
  cases h : TorIpRotator.rotate_ip s oracle u p with
  | ok ip s' n =>
      obtain ⟨_, _, _, _, _, _, _, h8⟩ := ip_loop_ok_inv s.max_rotations 0 s h
      simp only [TorIpRotator.RotateResult.attempts]
      omega
  | error e s' n =>
      obtain ⟨_, _, _, _, _, h6⟩ := ip_loop_error_inv s.max_rotations 0 s h
      simp only [TorIpRotator.RotateResult.attempts]
      omega

/-- If the very first attempt of a rotate_ip call probes an address that
passes both enabled acceptance checks, the call accepts it at once:
returns it after exactly one renewal, appending it to the history. -/
theorem ip_first_accept {oracle : Nat → Attempt} {u p : Bool} {s : TorIpRotator}
    {info ip : String}
    (hm : 1 ≤ s.max_rotations)
    (hc : (oracle 0).ctrl = .status info)
    (hp : TorIpRotator.make_request_through_tor (oracle 0).probe = .ok ip)
    (hbase : (p && (ip == s.local_ip)) = false)
    (huniq : (u && s.used_ips.contains ip) = false) :
    ∃ s', TorIpRotator.rotate_ip s oracle u p = .ok ip s' 1 ∧
      s'.used_ips = s.used_ips ++ [ip] ∧ s'.tor_ip = s.tor_ip := by
  rw [TorIpRotator.rotate_ip]
  obtain ⟨m, hmr⟩ : ∃ m, s.max_rotations = m + 1 := ⟨s.max_rotations - 1, by omega⟩
  rw [hmr, TorIpRotator.rotate_ip_loop]
  cases hren : TorIpRotator.renew_tor_circuit s (oracle 0).ctrl with
  | error e => rw [hc] at hren; simp [TorIpRotator.renew_tor_circuit] at hren
  | ok s1 =>
      simp only [hren]
      obtain ⟨hl, hu, hmx, ht⟩ := ip_renew_ok_fields hren
      simp only [hp]
      have hb : ¬ (p && (ip == s1.local_ip)) = true := by
        rw [hl, hbase]; simp
      rw [if_neg hb]
      have hq : ¬ (u && s1.used_ips.contains ip) = true := by
        rw [hu, huniq]; simp
      rw [if_neg hq]
      exact ⟨_, rfl, by simp [hu], by simp [ht]⟩

/-- A `rotate_proxy` call never executes more loop iterations (renewal
attempts) than `max_rotations`. -/
theorem proxy_attempts_le (s : TorProxy) (oracle : Nat → Attempt) (u p : Bool) :
    (TorProxy.rotate_proxy s oracle u p).attempts ≤ s.max_rotations := by
  cases h : TorProxy.rotate_proxy s oracle u p with
  | ok ip s' n =>
      obtain ⟨_, _, _, _, _, _, _, h8⟩ := proxy_loop_ok_inv s.max_rotations 0 s h
      simp only [TorProxy.RotateResult.attempts]
      omega
  | error e s' n =>
      obtain ⟨_, _, _, _, _, h6⟩ := proxy_loop_error_inv s.max_rotations 0 s h
      simp only [TorProxy.RotateResult.attempts]
      omega

/-- If the very first attempt of a rotate_proxy call probes an address
that passes both enabled acceptance checks, the call accepts it at once. -/
theorem proxy_first_accept {oracle : Nat → Attempt} {u p : Bool} {s : TorProxy}
    {info ip : String}
    (hm : 1 ≤ s.max_rotations)
    (hc : (oracle 0).ctrl = .status info)
    (hp : TorProxy.make_request_through_tor (oracle 0).probe = .ok ip)
    (hbase : (p && (ip == s.local_ip)) = false)
    (huniq : (u && s.used_proxies.contains ip) = false) :
    ∃ s', TorProxy.rotate_proxy s oracle u p = .ok ip s' 1 ∧
      s'.used_proxies = s.used_proxies ++ [ip] ∧ s'.tor_ip = s.tor_ip := by
  rw [TorProxy.rotate_proxy]
  obtain ⟨m, hmr⟩ : ∃ m, s.max_rotations = m + 1 := ⟨s.max_rotations - 1, by omega⟩
  rw [hmr, TorProxy.rotate_proxy_loop]
  cases hren : TorProxy.renew_tor_circuit s (oracle 0).ctrl with
  | error e => rw [hc] at hren; simp [TorProxy.renew_tor_circuit] at hren
  | ok s1 =>
      simp only [hren]
      obtain ⟨hl, hu, hmx, ht⟩ := proxy_renew_ok_fields hren
      simp only [hp]
      have hb : ¬ (p && (ip == s1.local_ip)) = true := by
        rw [hl, hbase]; simp
      rw [if_neg hb]
      have hq : ¬ (u && s1.used_proxies.contains ip) = true := by
        rw [hu, huniq]; simp
      rw [if_neg hq]
      exact ⟨_, rfl, by simp [hu], by simp [ht]⟩

/-- C1 counterexample: on the concrete instance `sampleIp` (whose
construction-time anonymized reading is `"9.9.9.9"`), a successful
`rotate_ip` returns and appends `"1.2.3.4"`, yet afterwards the `tor_ip`
field still holds `"9.9.9.9"` — `rotate_ip` never assigns `self.tor_ip`,
so `tor_ip` does not equal the address just returned and appended, contrary
to the claim. -/
theorem C1_counterexample :
    TorIpRotator.rotate_ip sampleIp okOracle false true =
      .ok "1.2.3.4" sampleIpAfter 1 ∧
    sampleIpAfter.tor_ip = "9.9.9.9" ∧
    ("9.9.9.9" : String) ≠ "1.2.3.4" := by
  refine ⟨by decide, by decide, by decide⟩

/-- C1 (amended): for every successful `rotate_ip` / `rotate_proxy` call
the returned address is appended exactly once to the history list
(`used_ips` / `used_proxies`), but `tor_ip` is left at its previous
(construction-time) value — the rotate methods never update it, so it
need not equal the returned address. -/
theorem C1_success_appends_once_but_tor_ip_unchanged
    (s : TorIpRotator) (oracle : Nat → Attempt) (u p : Bool)
    (ip : String) (s' : TorIpRotator) (n : Nat)
    (h : TorIpRotator.rotate_ip s oracle u p = .ok ip s' n)
    (t : TorProxy) (oracle2 : Nat → Attempt) (u2 p2 : Bool)
    (ip2 : String) (t' : TorProxy) (n2 : Nat)
    (h2 : TorProxy.rotate_proxy t oracle2 u2 p2 = .ok ip2 t' n2) :
    s'.used_ips = s.used_ips ++ [ip] ∧ s'.tor_ip = s.tor_ip ∧
    t'.used_proxies = t.used_proxies ++ [ip2] ∧ t'.tor_ip = t.tor_ip := by
  obtain ⟨ha, _, hb, _, _, _, _, _⟩ := ip_loop_ok_inv s.max_rotations 0 s h
  obtain ⟨hc, _, hd, _, _, _, _, _⟩ := proxy_loop_ok_inv t.max_rotations 0 t h2
  exact ⟨ha, hb, hc, hd⟩

/-- C1 witness: the amended statement at the concrete inputs of the
counterexample. -/
theorem C1_success_appends_once_but_tor_ip_unchanged_witness :
    sampleIpAfter.used_ips = sampleIp.used_ips ++ ["1.2.3.4"] ∧
    sampleIpAfter.tor_ip = sampleIp.tor_ip ∧
    sampleProxyAfter.used_proxies = sampleProxy.used_proxies ++ ["1.2.3.4"] ∧
    sampleProxyAfter.tor_ip = sampleProxy.tor_ip :=
  C1_success_appends_once_but_tor_ip_unchanged sampleIp okOracle false true
    "1.2.3.4" sampleIpAfter 1 (by decide)
    sampleProxy okOracle false true "1.2.3.4" sampleProxyAfter 1 (by decide)

/-- C2: evaluating construction at a concrete valid configuration.  On the
success path exactly two httpx probes are issued, but BOTH carry the empty
mount table `[]`: the second (tor_ip baseline) probe runs before
`tor_mount_ip` is assigned (src/rotating_ip.py line 51 runs before lines
52–55), so it is not routed through the anonymizing transport even though
the constructed instance ends up with a populated mount dict.  Moreover a
transport failure of the first (direct) probe escapes as the raw
`httpx.RequestError`, not as any wrapping error, while a transport failure
of the second probe is wrapped in the RuntimeError of
`make_request_through_tor`. -/
theorem C2_both_probes_issued_with_empty_mounts :
    (TorIpRotator.init "pw" "http://u" (some "socks5://127.0.0.1:9050") 9051 10 10
        (.response 200 "1.1.1.1") (.response 200 "2.2.2.2")).2 =
      [⟨"http://u", []⟩, ⟨"http://u", []⟩] ∧
    (TorIpRotator.init "pw" "http://u" (some "socks5://127.0.0.1:9050") 9051 10 10
        (.response 200 "1.1.1.1") (.response 200 "2.2.2.2")).1 =
      .ok { tor_ip := "2.2.2.2", local_ip := "1.1.1.1", tor_data := [], max_rotations := 10
          , tor_mount_ip := [("http://", some "socks5://127.0.0.1:9050"), ("https://", some "socks5://127.0.0.1:9050")]
          , tor_port := 9051, used_ips := [], ip_service_url := "http://u"
          , tor_password := "pw", max_circuit_dirtness := 10 } ∧
    (TorIpRotator.init "pw" "http://u" (some "socks5://127.0.0.1:9050") 9051 10 10
        (.transportError "boom") (.response 200 "2.2.2.2")).1 =
      .error (.httpxError "boom") ∧
    (PyError.httpxError "boom").isRuntimeError = false ∧
    (TorIpRotator.init "pw" "http://u" (some "socks5://127.0.0.1:9050") 9051 10 10
        (.response 200 "1.1.1.1") (.transportError "boom")).1 =
      .error (.runtimeError "Failed to make a request through Tor: boom") := by
  refine ⟨rfl, rfl, rfl, rfl, rfl⟩

/-- C4 counterexample: a non-2xx response makes `make_request_through_tor`
raise the raw `httpx.HTTPStatusError` from `raise_for_status()` —
`HTTPStatusError` is not a subclass of `httpx.RequestError`, so the
`except httpx.RequestError` clause does not catch it and no wrapping
RuntimeError is produced, contrary to the claim. -/
theorem C4_counterexample :
    TorIpRotator.make_request_through_tor (.response 404 "not found") =
      .error (.httpStatusError 404) ∧
    (PyError.httpStatusError 404).isRuntimeError = false ∧
    TorProxy.make_request_through_tor (.response 404 "not found") =
      .error (.httpStatusError 404) := by
  refine ⟨rfl, rfl, rfl⟩

/-- C4 (amended): `make_request_through_tor` returns the body of a 2xx
response; a transport failure (`httpx.RequestError`) is wrapped in a
RuntimeError; but a non-2xx status escapes as the unwrapped
`httpx.HTTPStatusError` instead of a wrapping error. -/
theorem C4_request_body_or_error
    (msg : String) (st : Nat) (body : String) (h2 : is_success st = true)
    (st2 : Nat) (body2 : String) (hbad : is_success st2 = false) :
    TorIpRotator.make_request_through_tor (.transportError msg) =
      .error (.runtimeError ("Failed to make a request through Tor: " ++ msg)) ∧
    TorIpRotator.make_request_through_tor (.response st body) = .ok body ∧
    TorIpRotator.make_request_through_tor (.response st2 body2) =
      .error (.httpStatusError st2) ∧
    TorProxy.make_request_through_tor (.transportError msg) =
      .error (.runtimeError ("Failed to make a request through Tor: " ++ msg)) ∧
    TorProxy.make_request_through_tor (.response st body) = .ok body ∧
    TorProxy.make_request_through_tor (.response st2 body2) =
      .error (.httpStatusError st2) := by
  refine ⟨rfl, ?_, ?_, rfl, ?_, ?_⟩ <;>
    simp [TorIpRotator.make_request_through_tor, TorProxy.make_request_through_tor, h2, hbad]

/-- C4 witness: the amended statement at `msg = "boom"`, a 200 response
and a 404 response. -/
theorem C4_request_body_or_error_witness :
    TorIpRotator.make_request_through_tor (.transportError "boom") =
      .error (.runtimeError "Failed to make a request through Tor: boom") ∧
    TorIpRotator.make_request_through_tor (.response 200 "93.184.216.34") = .ok "93.184.216.34" ∧
    TorIpRotator.make_request_through_tor (.response 404 "not found") =
      .error (.httpStatusError 404) ∧
    TorProxy.make_request_through_tor (.transportError "boom") =
      .error (.runtimeError "Failed to make a request through Tor: boom") ∧
    TorProxy.make_request_through_tor (.response 200 "93.184.216.34") = .ok "93.184.216.34" ∧
    TorProxy.make_request_through_tor (.response 404 "not found") =
      .error (.httpStatusError 404) :=
  C4_request_body_or_error "boom" 200 "93.184.216.34" (by decide) 404 "not found" (by decide)

/-- C3 counterexample: `fullHistIp` has `used_ips = ["1.1.1.1"]` of length
equal to `max_rotations = 1`, yet a `rotate_ip(unique=True)` call whose
first probe reads the fresh address `"1.2.3.4"` SUCCEEDS — no
ExhaustedError is raised merely because the history is full; the error
fires only when a probed address repeats one already in the history. -/
theorem C3_counterexample :
    fullHistIp.used_ips.length = fullHistIp.max_rotations ∧
    TorIpRotator.rotate_ip fullHistIp okOracle true true =
      .ok "1.2.3.4"
        { fullHistIp with used_ips := ["1.1.1.1", "1.2.3.4"], tor_data := [("circuit_status", ["CIRC 1 BUILT"])] } 1 := by
  refine ⟨by decide, by decide⟩

/-- C3 (amended): with `unique=True`, no duplicate is ever accepted — a
successful call returns an address not yet in the history and appends it
once (so distinctness of accepted addresses holds at every history
length, not only below `maxAttempts`); and the
`"All possible IPs have been exhausted."` RuntimeError is raised (after a
single renewal) exactly in the situation where a probed address repeats
one already in the history while the history length has reached
`max_rotations` — a fresh probed address is still accepted even then.
Both rotator classes behave alike. -/
theorem C3_unique_no_duplicates_and_dup_exhaustion
    (s : TorIpRotator) (oracle : Nat → Attempt) (p : Bool)
    (ip : String) (s' : TorIpRotator) (n : Nat)
    (h : TorIpRotator.rotate_ip s oracle true p = .ok ip s' n)
    (s2 : TorIpRotator) (oracle2 : Nat → Attempt) (p2 : Bool) (info dup : String)
    (hm : 1 ≤ s2.max_rotations)
    (hc : (oracle2 0).ctrl = .status info)
    (hp : TorIpRotator.make_request_through_tor (oracle2 0).probe = .ok dup)
    (hbase : (p2 && (dup == s2.local_ip)) = false)
    (hdup : s2.used_ips.contains dup = true)
    (hfull : s2.max_rotations ≤ s2.used_ips.length)
    (t : TorProxy) (oracle3 : Nat → Attempt) (q : Bool)
    (ip3 : String) (t' : TorProxy) (n3 : Nat)
    (h3 : TorProxy.rotate_proxy t oracle3 true q = .ok ip3 t' n3)
    (t2 : TorProxy) (oracle4 : Nat → Attempt) (q2 : Bool) (info4 dup4 : String)
    (hm4 : 1 ≤ t2.max_rotations)
    (hc4 : (oracle4 0).ctrl = .status info4)
    (hp4 : TorProxy.make_request_through_tor (oracle4 0).probe = .ok dup4)
    (hbase4 : (q2 && (dup4 == t2.local_ip)) = false)
    (hdup4 : t2.used_proxies.contains dup4 = true)
    (hfull4 : t2.max_rotations ≤ t2.used_proxies.length) :
    (s.used_ips.contains ip = false ∧ s'.used_ips = s.used_ips ++ [ip]) ∧
    (TorIpRotator.rotate_ip s2 oracle2 true p2 =
        .error (.runtimeError "All possible IPs have been exhausted.")
          ((TorIpRotator.rotate_ip s2 oracle2 true p2).state) 1 ∧
      (TorIpRotator.rotate_ip s2 oracle2 true p2).state.used_ips = s2.used_ips) ∧
    (t.used_proxies.contains ip3 = false ∧ t'.used_proxies = t.used_proxies ++ [ip3]) ∧
    (TorProxy.rotate_proxy t2 oracle4 true q2 =
        .error (.runtimeError "All possible IPs have been exhausted.")
          ((TorProxy.rotate_proxy t2 oracle4 true q2).state) 1 ∧
      (TorProxy.rotate_proxy t2 oracle4 true q2).state.used_proxies = t2.used_proxies) := by
  obtain ⟨ha1, _, _, _, _, ha6, _, _⟩ := ip_loop_ok_inv s.max_rotations 0 s h
  obtain ⟨sx, hex, hux⟩ := ip_dup_exhausted hm hc hp hbase hdup hfull
  obtain ⟨hb1, _, _, _, _, hb6, _, _⟩ := proxy_loop_ok_inv t.max_rotations 0 t h3
  obtain ⟨tx, hey, huy⟩ := proxy_dup_exhausted hm4 hc4 hp4 hbase4 hdup4 hfull4
  refine ⟨⟨ha6 rfl, ha1⟩, ?_, ⟨hb6 rfl, hb1⟩, ?_⟩
  · rw [hex]
    exact ⟨rfl, hux⟩
  · rw [hey]
    exact ⟨rfl, huy⟩

/-- C3 witness: the amended statement at concrete inputs — a unique-mode
success on `sampleIp`, and unique-mode exhaustion on `fullHistIp` /
`fullHistProxy` whose probes re-read the already-seen `"1.1.1.1"`. -/
theorem C3_unique_no_duplicates_and_dup_exhaustion_witness :
    (sampleIp.used_ips.contains "1.2.3.4" = false ∧
      sampleIpAfter.used_ips = sampleIp.used_ips ++ ["1.2.3.4"]) ∧
    (TorIpRotator.rotate_ip fullHistIp dupOracle true true =
        .error (.runtimeError "All possible IPs have been exhausted.")
          ((TorIpRotator.rotate_ip fullHistIp dupOracle true true).state) 1 ∧
      (TorIpRotator.rotate_ip fullHistIp dupOracle true true).state.used_ips =
        fullHistIp.used_ips) ∧
    (sampleProxy.used_proxies.contains "1.2.3.4" = false ∧
      sampleProxyAfter.used_proxies = sampleProxy.used_proxies ++ ["1.2.3.4"]) ∧
    (TorProxy.rotate_proxy fullHistProxy dupOracle true true =
        .error (.runtimeError "All possible IPs have been exhausted.")
          ((TorProxy.rotate_proxy fullHistProxy dupOracle true true).state) 1 ∧
      (TorProxy.rotate_proxy fullHistProxy dupOracle true true).state.used_proxies =
        fullHistProxy.used_proxies) :=
  C3_unique_no_duplicates_and_dup_exhaustion
    sampleIp okOracle true "1.2.3.4" sampleIpAfter 1 (by decide)
    fullHistIp dupOracle true "CIRC 1 BUILT" "1.1.1.1"
    (by decide) rfl rfl (by decide) (by decide) (by decide)
    sampleProxy okOracle true "1.2.3.4" sampleProxyAfter 1 (by decide)
    fullHistProxy dupOracle true "CIRC 1 BUILT" "1.1.1.1"
    (by decide) rfl rfl (by decide) (by decide) (by decide)

/-- C5: a `rotate_ip` call never performs more than `max_rotations`
renewal attempts; and when every one of the `max_rotations` iterations
takes a `continue` branch (renewal and probe succeed, address rejected by
the acceptance policy without raising), the call fails with the
`"Max IP rotations reached. Failed to get a unique new IP."` RuntimeError
after exactly `max_rotations` attempts, leaving the history unchanged. -/
theorem C5_attempts_bounded_and_loop_exhaustion
    (s : TorIpRotator) (oracle : Nat → Attempt) (u p : Bool)
    (s2 : TorIpRotator) (oracle2 : Nat → Attempt) (u2 p2 : Bool)
    (hrej : ∀ k, k < s2.max_rotations →
      attemptRejected s2.local_ip s2.used_ips s2.max_rotations (oracle2 k) u2 p2 = true) :
    (TorIpRotator.rotate_ip s oracle u p).attempts ≤ s.max_rotations ∧
    TorIpRotator.rotate_ip s2 oracle2 u2 p2 =
      .error (.runtimeError "Max IP rotations reached. Failed to get a unique new IP.")
        ((TorIpRotator.rotate_ip s2 oracle2 u2 p2).state) s2.max_rotations ∧
    (TorIpRotator.rotate_ip s2 oracle2 u2 p2).state.used_ips = s2.used_ips := by
  obtain ⟨s3, heq, hu⟩ := ip_loop_all_rejected s2.max_rotations 0 s2
    (by intro k hk1 hk2; exact hrej k (by omega))
  have hr : TorIpRotator.rotate_ip s2 oracle2 u2 p2 =
      .error (.runtimeError "Max IP rotations reached. Failed to get a unique new IP.")
        s3 s2.max_rotations := by
    rw [TorIpRotator.rotate_ip, heq]
    congr 1
    omega
  refine ⟨ip_attempts_le s oracle u p, ?_, ?_⟩
  · rw [hr]
    simp only [TorIpRotator.RotateResult.state]
  · rw [hr]
    exact hu

/-- C5 witness: `sampleIp` (baseline `"5.5.5.5"`, three rotations) under
an environment whose probes always re-read the baseline: every attempt is
rejected by the baseline check, and the call exhausts after exactly 3
renewals. -/
theorem C5_attempts_bounded_and_loop_exhaustion_witness :
    (TorIpRotator.rotate_ip sampleIp okOracle false true).attempts ≤ sampleIp.max_rotations ∧
    TorIpRotator.rotate_ip sampleIp baselineOracle false true =
      .error (.runtimeError "Max IP rotations reached. Failed to get a unique new IP.")
        ((TorIpRotator.rotate_ip sampleIp baselineOracle false true).state)
        sampleIp.max_rotations ∧
    (TorIpRotator.rotate_ip sampleIp baselineOracle false true).state.used_ips =
      sampleIp.used_ips :=
  C5_attempts_bounded_and_loop_exhaustion sampleIp okOracle false true
    sampleIp baselineOracle false true (by decide)

/-- C6: as long as every address already in the history differs from the
baseline, after any `rotate` call made with `prevent_ips_match=True`
(whatever its outcome) every address in the history still differs from the
baseline, and the baseline itself is unchanged — so across any number of
such calls no accepted address ever equals the baseline.  Both rotator
classes behave alike. -/
theorem C6_prevent_baseline_match_invariant
    (s : TorIpRotator) (oracle : Nat → Attempt) (u : Bool)
    (hinv : ∀ x ∈ s.used_ips, x ≠ s.local_ip)
    (t : TorProxy) (oracle2 : Nat → Attempt) (u2 : Bool)
    (hinv2 : ∀ x ∈ t.used_proxies, x ≠ t.local_ip) :
    ((TorIpRotator.rotate_ip s oracle u true).state.local_ip = s.local_ip ∧
     ∀ x ∈ (TorIpRotator.rotate_ip s oracle u true).state.used_ips,
       x ≠ (TorIpRotator.rotate_ip s oracle u true).state.local_ip) ∧
    ((TorProxy.rotate_proxy t oracle2 u2 true).state.local_ip = t.local_ip ∧
     ∀ x ∈ (TorProxy.rotate_proxy t oracle2 u2 true).state.used_proxies,
       x ≠ (TorProxy.rotate_proxy t oracle2 u2 true).state.local_ip) := by
  constructor
  · cases h : TorIpRotator.rotate_ip s oracle u true with
    | ok ip s' n =>
        obtain ⟨h1, h2, _, _, h5, _, _, _⟩ := ip_loop_ok_inv s.max_rotations 0 s h
        simp only [TorIpRotator.RotateResult.state]
        refine ⟨h2, ?_⟩
        intro x hx
        rw [h1] at hx
        rw [h2]
        rcases List.mem_append.mp hx with hx1 | hx2
        · exact hinv x hx1
        · rw [List.mem_singleton.mp hx2]
          exact h5 rfl
    | error e s' n =>
        obtain ⟨h1, h2, _, _, _, _⟩ := ip_loop_error_inv s.max_rotations 0 s h
        simp only [TorIpRotator.RotateResult.state]
        refine ⟨h2, ?_⟩
        intro x hx
        rw [h1] at hx
        rw [h2]
        exact hinv x hx
  · cases h : TorProxy.rotate_proxy t oracle2 u2 true with
    | ok ip t' n =>
        obtain ⟨h1, h2, _, _, h5, _, _, _⟩ := proxy_loop_ok_inv t.max_rotations 0 t h
        simp only [TorProxy.RotateResult.state]
        refine ⟨h2, ?_⟩
        intro x hx
        rw [h1] at hx
        rw [h2]
        rcases List.mem_append.mp hx with hx1 | hx2
        · exact hinv2 x hx1
        · rw [List.mem_singleton.mp hx2]
          exact h5 rfl
    | error e t' n =>
        obtain ⟨h1, h2, _, _, _, _⟩ := proxy_loop_error_inv t.max_rotations 0 t h
        simp only [TorProxy.RotateResult.state]
        refine ⟨h2, ?_⟩
        intro x hx
        rw [h1] at hx
        rw [h2]
        exact hinv2 x hx

/-- C6 witness: the invariant at the concrete instances `sampleIp` and
`sampleProxy` (empty histories). -/
theorem C6_prevent_baseline_match_invariant_witness :
    ((TorIpRotator.rotate_ip sampleIp okOracle false true).state.local_ip = sampleIp.local_ip ∧
     ∀ x ∈ (TorIpRotator.rotate_ip sampleIp okOracle false true).state.used_ips,
       x ≠ (TorIpRotator.rotate_ip sampleIp okOracle false true).state.local_ip) ∧
    ((TorProxy.rotate_proxy sampleProxy okOracle false true).state.local_ip = sampleProxy.local_ip ∧
     ∀ x ∈ (TorProxy.rotate_proxy sampleProxy okOracle false true).state.used_proxies,
       x ≠ (TorProxy.rotate_proxy sampleProxy okOracle false true).state.local_ip) :=
  C6_prevent_baseline_match_invariant sampleIp okOracle false (by decide)
    sampleProxy okOracle false (by decide)

/-- C7: when the control password or the probe-service URL is empty (the
falsy "empty or absent" configuration), construction of either class
raises the corresponding ValueError and the trace of httpx calls is empty
— no network activity has happened (the Tor controller is never touched
during construction at all). -/
theorem C7_config_error_before_any_network
    (pw url : String) (socket : Option String) (port dirt : Int) (maxr : Nat)
    (p1 p2 : HttpxResult) (h : pw = "" ∨ url = "") :
    ((TorIpRotator.init pw url socket port dirt maxr p1 p2).1 =
        .error (.valueError
          "Tor password is not set. Ensure the PASSWORD environment variable is configured.") ∨
     (TorIpRotator.init pw url socket port dirt maxr p1 p2).1 =
        .error (.valueError
          "Service URL is not set. Ensure the SERVICE_URL environment variable is configured.")) ∧
    (TorIpRotator.init pw url socket port dirt maxr p1 p2).2 = [] ∧
    ((TorProxy.init pw url socket port dirt maxr p1 p2).1 =
        .error (.valueError
          "Tor password is not set. Ensure the PASSWORD environment variable is configured.") ∨
     (TorProxy.init pw url socket port dirt maxr p1 p2).1 =
        .error (.valueError
          "Service URL is not set. Ensure the SERVICE_URL environment variable is configured.")) ∧
    (TorProxy.init pw url socket port dirt maxr p1 p2).2 = [] := by
  by_cases hpw : pw = ""
  · refine ⟨Or.inl ?_, ?_, Or.inl ?_, ?_⟩ <;>
      simp [TorIpRotator.init, TorProxy.init, hpw]
  · have hurl : url = "" := h.resolve_left hpw
    refine ⟨Or.inr ?_, ?_, Or.inr ?_, ?_⟩ <;>
      simp [TorIpRotator.init, TorProxy.init, hpw, hurl]

/-- C7 witness: construction with an empty password and a non-empty URL. -/
theorem C7_config_error_before_any_network_witness :
    (((TorIpRotator.init "" "http://u" (some "sk") 9051 10 10
          (.response 200 "1.1.1.1") (.response 200 "2.2.2.2")).1 =
        .error (.valueError
          "Tor password is not set. Ensure the PASSWORD environment variable is configured.") ∨
      (TorIpRotator.init "" "http://u" (some "sk") 9051 10 10
          (.response 200 "1.1.1.1") (.response 200 "2.2.2.2")).1 =
        .error (.valueError
          "Service URL is not set. Ensure the SERVICE_URL environment variable is configured.")) ∧
     (TorIpRotator.init "" "http://u" (some "sk") 9051 10 10
        (.response 200 "1.1.1.1") (.response 200 "2.2.2.2")).2 = [] ∧
     ((TorProxy.init "" "http://u" (some "sk") 9051 10 10
          (.response 200 "1.1.1.1") (.response 200 "2.2.2.2")).1 =
        .error (.valueError
          "Tor password is not set. Ensure the PASSWORD environment variable is configured.") ∨
      (TorProxy.init "" "http://u" (some "sk") 9051 10 10
          (.response 200 "1.1.1.1") (.response 200 "2.2.2.2")).1 =
        .error (.valueError
          "Service URL is not set. Ensure the SERVICE_URL environment variable is configured.")) ∧
     (TorProxy.init "" "http://u" (some "sk") 9051 10 10
        (.response 200 "1.1.1.1") (.response 200 "2.2.2.2")).2 = []) :=
  C7_config_error_before_any_network "" "http://u" (some "sk") 9051 10 10
    (.response 200 "1.1.1.1") (.response 200 "2.2.2.2") (Or.inl rfl)

/-- C8: the spec's concrete scenario — `max_rotations = 3`, probes reading
`[baseline, baseline, "1.2.3.4"]`, `prevent_ips_match=True` — returns
`"1.2.3.4"` after exactly 3 renewal attempts, appending it to the
history. -/
theorem C8_three_attempt_scenario :
    TorIpRotator.rotate_ip c8State c8Oracle false true =
      .ok "1.2.3.4" { c8State with used_ips := ["1.2.3.4"], tor_data := [("circuit_status", ["CIRC 3 BUILT"])] } 3 ∧
    (TorIpRotator.rotate_ip c8State c8Oracle false true).attempts = 3 := by
  refine ⟨by decide, by decide⟩

/-- C9: a rotate call mutates the history only by appending the single
accepted address — on success the history is the old history plus that
one address, and on any raising outcome (ControllerError, ProbeError,
exhaustion) the history is exactly as before the call.  Both rotator
classes behave alike. -/
theorem C9_history_only_appended_on_success
    (s : TorIpRotator) (oracle : Nat → Attempt) (u p : Bool)
    (ip : String) (s' : TorIpRotator) (n : Nat)
    (h : TorIpRotator.rotate_ip s oracle u p = .ok ip s' n)
    (s2 : TorIpRotator) (oracle2 : Nat → Attempt) (u2 p2 : Bool)
    (e : PyError) (s2' : TorIpRotator) (n2 : Nat)
    (h2 : TorIpRotator.rotate_ip s2 oracle2 u2 p2 = .error e s2' n2)
    (t : TorProxy) (oracle3 : Nat → Attempt) (u3 p3 : Bool)
    (ip3 : String) (t' : TorProxy) (n3 : Nat)
    (h3 : TorProxy.rotate_proxy t oracle3 u3 p3 = .ok ip3 t' n3)
    (t2 : TorProxy) (oracle4 : Nat → Attempt) (u4 p4 : Bool)
    (e4 : PyError) (t2' : TorProxy) (n4 : Nat)
    (h4 : TorProxy.rotate_proxy t2 oracle4 u4 p4 = .error e4 t2' n4) :
    s'.used_ips = s.used_ips ++ [ip] ∧ s2'.used_ips = s2.used_ips ∧
    t'.used_proxies = t.used_proxies ++ [ip3] ∧ t2'.used_proxies = t2.used_proxies := by
  obtain ⟨ha, _, _, _, _, _, _, _⟩ := ip_loop_ok_inv s.max_rotations 0 s h
  obtain ⟨hb, _, _, _, _, _⟩ := ip_loop_error_inv s2.max_rotations 0 s2 h2
  obtain ⟨hc, _, _, _, _, _, _, _⟩ := proxy_loop_ok_inv t.max_rotations 0 t h3
  obtain ⟨hd, _, _, _, _, _⟩ := proxy_loop_error_inv t2.max_rotations 0 t2 h4
  exact ⟨ha, hb, hc, hd⟩

/-- C9 witness: a concrete success (append of `"1.2.3.4"`) and a concrete
controller failure (history untouched), on both classes. -/
theorem C9_history_only_appended_on_success_witness :
    sampleIpAfter.used_ips = sampleIp.used_ips ++ ["1.2.3.4"] ∧
    sampleIp.used_ips = sampleIp.used_ips ∧
    sampleProxyAfter.used_proxies = sampleProxy.used_proxies ++ ["1.2.3.4"] ∧
    sampleProxy.used_proxies = sampleProxy.used_proxies :=
  C9_history_only_appended_on_success
    sampleIp okOracle false true "1.2.3.4" sampleIpAfter 1 (by decide)
    sampleIp ctrlFailOracle false true (.controllerError "connection refused") sampleIp 1 (by decide)
    sampleProxy okOracle false true "1.2.3.4" sampleProxyAfter 1 (by decide)
    sampleProxy ctrlFailOracle false true (.controllerError "connection refused") sampleProxy 1 (by decide)

/-- C10: calling rotate with no arguments is the call with
`unique=False, prevent_ips_match=True`; under these defaults the first
probed address that differs from the baseline is accepted after one
renewal and appended to the history — with no condition on whether it
already occurs there (the witness re-accepts a previously seen address).
Both rotator classes behave alike. -/
theorem C10_no_arg_call_defaults
    (s : TorIpRotator) (oracle : Nat → Attempt) (info ip : String)
    (hm : 1 ≤ s.max_rotations)
    (hc : (oracle 0).ctrl = .status info)
    (hp : TorIpRotator.make_request_through_tor (oracle 0).probe = .ok ip)
    (hne : (ip == s.local_ip) = false)
    (t : TorProxy) (oracle2 : Nat → Attempt) (info2 ip2 : String)
    (hm2 : 1 ≤ t.max_rotations)
    (hc2 : (oracle2 0).ctrl = .status info2)
    (hp2 : TorProxy.make_request_through_tor (oracle2 0).probe = .ok ip2)
    (hne2 : (ip2 == t.local_ip) = false) :
    TorIpRotator.rotate_ip_defaults s oracle = TorIpRotator.rotate_ip s oracle false true ∧
    TorIpRotator.rotate_ip_defaults s oracle =
      .ok ip ((TorIpRotator.rotate_ip_defaults s oracle).state) 1 ∧
    (TorIpRotator.rotate_ip_defaults s oracle).state.used_ips = s.used_ips ++ [ip] ∧
    TorProxy.rotate_proxy_defaults t oracle2 = TorProxy.rotate_proxy t oracle2 false true ∧
    TorProxy.rotate_proxy_defaults t oracle2 =
      .ok ip2 ((TorProxy.rotate_proxy_defaults t oracle2).state) 1 ∧
    (TorProxy.rotate_proxy_defaults t oracle2).state.used_proxies = t.used_proxies ++ [ip2] := by
  obtain ⟨s', hs, hu, _⟩ := @ip_first_accept oracle false true s info ip hm hc hp
    (by rw [Bool.true_and]; exact hne) (by rw [Bool.false_and])
  obtain ⟨t', ht, hv, _⟩ := @proxy_first_accept oracle2 false true t info2 ip2 hm2 hc2 hp2
    (by rw [Bool.true_and]; exact hne2) (by rw [Bool.false_and])
  have hds : TorIpRotator.rotate_ip_defaults s oracle = .ok ip s' 1 := hs
  have hdt : TorProxy.rotate_proxy_defaults t oracle2 = .ok ip2 t' 1 := ht
  refine ⟨rfl, ?_, ?_, rfl, ?_, ?_⟩
  · rw [hds]
    simp only [TorIpRotator.RotateResult.state]
  · rw [hds]
    simp only [TorIpRotator.RotateResult.state]
    exact hu
  · rw [hdt]
    simp only [TorProxy.RotateResult.state]
  · rw [hdt]
    simp only [TorProxy.RotateResult.state]
    exact hv

/-- C10 witness: on `seenIp` / `seenProxy`, whose histories already hold
`"1.2.3.4"`, the no-argument call accepts `"1.2.3.4"` again and appends a
second copy. -/
theorem C10_no_arg_call_defaults_witness :
    TorIpRotator.rotate_ip_defaults seenIp okOracle = TorIpRotator.rotate_ip seenIp okOracle false true ∧
    TorIpRotator.rotate_ip_defaults seenIp okOracle =
      .ok "1.2.3.4" ((TorIpRotator.rotate_ip_defaults seenIp okOracle).state) 1 ∧
    (TorIpRotator.rotate_ip_defaults seenIp okOracle).state.used_ips =
      seenIp.used_ips ++ ["1.2.3.4"] ∧
    TorProxy.rotate_proxy_defaults seenProxy okOracle = TorProxy.rotate_proxy seenProxy okOracle false true ∧
    TorProxy.rotate_proxy_defaults seenProxy okOracle =
      .ok "1.2.3.4" ((TorProxy.rotate_proxy_defaults seenProxy okOracle).state) 1 ∧
    (TorProxy.rotate_proxy_defaults seenProxy okOracle).state.used_proxies =
      seenProxy.used_proxies ++ ["1.2.3.4"] :=
  C10_no_arg_call_defaults seenIp okOracle "CIRC 1 BUILT" "1.2.3.4"
    (by decide) rfl rfl (by decide)
    seenProxy okOracle "CIRC 1 BUILT" "1.2.3.4"
    (by decide) rfl rfl (by decide)
